import Mathlib

/-!
Verification of the GameServerEC2Discord interaction-dispatch core.

The development shallowly embeds the two Lambda handlers of the repository:

* `HandleInteraction` models `base_global/lambda/handle-interaction/handler.py`
  (the synchronous dispatcher: signature verification, interaction parsing,
  SNS publish, deferred acknowledgment).
* `ManageInstance` models `base_global/lambda/manage-instance/handler.py`
  (the asynchronous executor: tag-based instance lookup, EC2 lifecycle
  commands, Discord interaction patch).

Python values flowing through the handlers are modelled by a small `Json`
type; Python exceptions by `Except PyError`; the external libraries the
handlers call (PyNaCl Ed25519 verification, `base64.b64decode`,
`json.loads`, boto3 EC2, `urllib`) are modelled as explicit capability
parameters, since their code is not part of the repository.  Effects the
handlers perform (SNS publishes, EC2 API calls, Discord PATCH requests)
are returned as explicit lists so theorems can talk about them.
-/

/-- Python exceptions that can escape the embedded code paths.
`clientError` models `botocore.exceptions.ClientError` carrying its
rendered message; `otherError` models any other provider exception
(e.g. a connection error, which is *not* a `ClientError`). -/
inductive PyError where
  | valueError
  | typeError
  | attributeError
  | clientError (msg : String)
  | otherError (msg : String)
deriving DecidableEq

/-- JSON values as produced by `json.loads` (floats are not modelled;
the payloads of this system only carry strings, integers, objects and
arrays). -/
inductive Json where
  | null
  | bool (b : Bool)
  | num (n : Int)
  | str (s : String)
  | arr (elems : List Json)
  | obj (fields : List (String × Json))

/-- First-match association-list lookup, modelling Python `dict` access
(CPython dicts have unique keys, so first-match is exact). -/
def jsonLookup : List (String × Json) → String → Option Json
  | [], _ => none
  | (k, v) :: rest, key => if k = key then some v else jsonLookup rest key

/-- Python `value.get(key)`: returns `None` for a missing key, raises
`AttributeError` when `value` is not a dict. -/
def Json.pyGet : Json → String → Except PyError (Option Json)
  | .obj fields, key => .ok (jsonLookup fields key)
  | _, _ => .error .attributeError

/-- Python truthiness of a JSON value. -/
def Json.truthy : Json → Bool
  | .null => false
  | .bool b => b
  | .num n => n != 0
  | .str s => s != ""
  | .arr [] => false
  | .arr (_ :: _) => true
  | .obj [] => false
  | .obj (_ :: _) => true

/-- Python truthiness of a `dict.get` result (`None` is falsy). -/
def truthyOpt : Option Json → Bool
  | none => false
  | some j => j.truthy

/-- Python `==` between a JSON value and an int literal
(`True == 1` and `False == 0` hold in Python). -/
def pyTypeEq : Option Json → Int → Bool
  | some (.num m), n => m == n
  | some (.bool b), n => (if b then (1 : Int) else 0) == n
  | _, _ => false

/-- Python `==` between a JSON value and a string literal
(only a `str` can equal a `str`). -/
def jsonIsStr : Json → String → Bool
  | .str t, s => t == s
  | _, _ => false

/-- Python `==` between a `dict.get` result and a string literal. -/
def pyStrEq : Option Json → String → Bool
  | some j, s => jsonIsStr j s
  | none, _ => false

/-- UTF-8 encoding of a string, modelled as its code points; exact for
the ASCII payloads this system handles. -/
def strToBytes (s : String) : List Nat :=
  s.data.map Char.toNat

/-- Value of one hexadecimal digit. -/
def hexDigitVal? (c : Char) : Option Nat :=
  if '0' ≤ c ∧ c ≤ '9' then some (c.toNat - '0'.toNat)
  else if 'a' ≤ c ∧ c ≤ 'f' then some (c.toNat - 'a'.toNat + 10)
  else if 'A' ≤ c ∧ c ≤ 'F' then some (c.toNat - 'A'.toNat + 10)
  else none

/-- Worker for `bytesFromHex`: pairs of hex digits, ASCII spaces allowed
between pairs, anything else is a failure. -/
def bytesFromHexAux : List Char → Option (List Nat)
  | [] => some []
  | ' ' :: rest => bytesFromHexAux rest
  | c1 :: c2 :: rest =>
    match hexDigitVal? c1, hexDigitVal? c2, bytesFromHexAux rest with
    | some h, some l, some bs => some ((16 * h + l) :: bs)
    | _, _, _ => none
  | [_] => none

/-- Python `bytes.fromhex`: `none` models the `ValueError` it raises on
a malformed hex string. -/
def bytesFromHex (s : String) : Option (List Nat) :=
  bytesFromHexAux s.data

/-- Python `str.lower()`, character by character. -/
def strLower (s : String) : String :=
  String.mk (s.data.map Char.toLower)

/-- Python `"\n".join(lines)`. -/
def joinLines : List String → String
  | [] => ""
  | [l] => l
  | l :: rest => l ++ "\n" ++ joinLines rest

namespace HandleInteraction

/- Embedding of `base_global/lambda/handle-interaction/handler.py`.
Leading underscores of the Python helper names are dropped. -/

/-- The relevant parts of the API-Gateway Lambda proxy event. -/
structure LambdaEvent where
  body : Option String
  isBase64Encoded : Bool
  headers : Option (List (String × String))

/-- An HTTP response as built by `_json_response`; the body is kept as
the JSON value handed to `json.dumps` (serialization is external). -/
structure Response where
  statusCode : Nat
  body : Json

/-- `_json_response(status_code, body)`. -/
def json_response (statusCode : Nat) (body : Json) : Response :=
  ⟨statusCode, body⟩

/-- Loop body of `_get_header`: first header whose non-empty key
lowercases to the wanted (already lowercased) name. -/
def getHeaderAux : List (String × String) → String → Option String
  | [], _ => none
  | (k, v) :: rest, lname =>
    if k ≠ "" ∧ strLower k = lname then some v else getHeaderAux rest lname

/-- `_get_header(headers, name)`: case-insensitive header lookup; an
absent or empty (falsy) header dict yields `None`. -/
def get_header (headers : Option (List (String × String))) (name : String) : Option String :=
  match headers with
  | none => none
  | some [] => none
  | some hs => getHeaderAux hs (strLower name)

/-- External capabilities used by the dispatcher: the PyNaCl Ed25519
verifier with the configured public key baked in (`cryptoVerify message
signature`), `base64.b64decode` (its `Except.error` models the
exception it raises on invalid input), and `json.loads`
(`none` models `json.JSONDecodeError`). -/
structure PyLibs where
  cryptoVerify : List Nat → List Nat → Bool
  b64decode : String → Except PyError (List Nat)
  parseJson : List Nat → Option Json

/-- `_get_body_bytes(event)`: base64-decode when the event says so,
otherwise UTF-8 encode (`event.get("body") or ""` maps a missing body
to the empty string). -/
def get_body_bytes (b64decode : String → Except PyError (List Nat))
    (event : LambdaEvent) : Except PyError (List Nat) :=
  let body := event.body.getD ""
  if event.isBase64Encoded then b64decode body
  else .ok (strToBytes body)

/-- `_verify_request(event, body_bytes)`.  Missing or empty headers
return `False`; then `bytes.fromhex(signature)` runs *inside* the
`try`, but the `except` clause catches only `BadSignatureError`, so the
`ValueError` raised on malformed hex propagates (modelled by
`.error .valueError`).  PyNaCl additionally raises `ValueError` when
the decoded signature is not exactly 64 bytes; a genuine signature
mismatch raises `BadSignatureError`, which is caught and turned into
`False`. -/
def verify_request (cryptoVerify : List Nat → List Nat → Bool)
    (event : LambdaEvent) (bodyBytes : List Nat) : Except PyError Bool :=
  let signature := get_header event.headers "x-signature-ed25519"
  let timestamp := get_header event.headers "x-signature-timestamp"
  match signature, timestamp with
  | some sig, some ts =>
    if sig = "" ∨ ts = "" then .ok false
    else
      match bytesFromHex sig with
      | none => .error .valueError
      | some sigBytes =>
        if sigBytes.length ≠ 64 then .error .valueError
        else .ok (cryptoVerify (strToBytes ts ++ bodyBytes) sigBytes)
  | _, _ => .ok false

/-- `interaction.get("data", {}).get(key)` (the default `{}` is used
only when the key `"data"` is missing; a present non-dict value raises
on the inner `get`). -/
def getDataField (interaction : Json) (key : String) : Except PyError (Option Json) :=
  match interaction.pyGet "data" with
  | .error e => .error e
  | .ok dataOpt => (dataOpt.getD (Json.obj [])).pyGet key

/-- Loop of `_find_server_option_value`: first option whose `"name"`
equals `"server"`, returning its `"value"`. -/
def findServerOptionAux : List Json → Except PyError (Option Json)
  | [] => .ok none
  | opt :: rest =>
    match opt.pyGet "name" with
    | .error e => .error e
    | .ok nameVal =>
      if pyStrEq nameVal "server" then opt.pyGet "value"
      else findServerOptionAux rest

/-- `data.get("options") or []` followed by iteration: a falsy value
iterates as the empty list, a JSON array iterates its elements, and a
truthy non-list value makes the loop body raise (iterating a dict or a
string yields strings whose `.get` raises `AttributeError`; other types
are not iterable), modelled uniformly as a raise. -/
def optionsListOf : Option Json → Except PyError (List Json)
  | none => .ok []
  | some j =>
    if !j.truthy then .ok []
    else
      match j with
      | .arr xs => .ok xs
      | _ => .error .typeError

/-- `_find_server_option_value(interaction)`. -/
def find_server_option_value (interaction : Json) : Except PyError (Option Json) :=
  match getDataField interaction "options" with
  | .error e => .error e
  | .ok optionsRaw =>
    match optionsListOf optionsRaw with
    | .error e => .error e
    | .ok options => findServerOptionAux options

/-- `not server_value or "|" not in server_value`: truthiness first,
then Python `in` (substring test on a `str`, membership on a `list` or
`dict`; `in` on an int or bool raises `TypeError`). -/
def serverOptionMalformed : Option Json → Except PyError Bool
  | none => .ok true
  | some v =>
    if !v.truthy then .ok true
    else
      match v with
      | .str s => .ok (!(s.data.contains '|'))
      | .arr xs => .ok (!(xs.any (fun j => jsonIsStr j "|")))
      | .obj fs => .ok (!(fs.any (fun kv => kv.1 == "|")))
      | _ => .error .typeError

/-- `server_value.split("|", 1)` unpacked into `(region, server_id)`:
split on the first `|` (callers have established that one occurs). -/
def splitOnce (s : String) : String × String :=
  (String.mk (s.data.takeWhile (fun c => c != '|')),
   String.mk (((s.data.dropWhile (fun c => c != '|'))).drop 1))

/-- `_publish_sns_message(...)`: the JSON object serialized into the
SNS message, field for field (note `region` and `instanceRegion` are
both set from the same `region` argument). -/
def publish_sns_message (command interactionId interactionToken : Json)
    (region serverId : String) : Json :=
  Json.obj
    [("interactionId", interactionId),
     ("interactionToken", interactionToken),
     ("command", command),
     ("serverId", Json.str serverId),
     ("region", Json.str region),
     ("instanceRegion", Json.str region)]

/-- Lines 128–163 of the dispatcher `handler`, from the parsed
interaction onwards.  The second component of a successful result is
the list of SNS messages published. -/
def handle_interaction (interaction : Json) : Except PyError (Response × List Json) :=
  match interaction.pyGet "type" with
  | .error e => .error e
  | .ok interactionType =>
    if pyTypeEq interactionType 1 then
      .ok (json_response 200 (.obj [("type", .num 1)]), [])
    else if !pyTypeEq interactionType 2 then
      .ok (json_response 400 (.obj [("error", .str "Unsupported interaction type")]), [])
    else
      match find_server_option_value interaction with
      | .error e => .error e
      | .ok serverValue =>
        match serverOptionMalformed serverValue with
        | .error e => .error e
        | .ok true =>
          .ok (json_response 400 (.obj [("error", .str "Missing server option")]), [])
        | .ok false =>
          match getDataField interaction "name" with
          | .error e => .error e
          | .ok commandName =>
            match interaction.pyGet "id" with
            | .error e => .error e
            | .ok interactionId =>
              match interaction.pyGet "token" with
              | .error e => .error e
              | .ok interactionToken =>
                if !(truthyOpt commandName && truthyOpt interactionId &&
                      truthyOpt interactionToken) then
                  .ok (json_response 400
                        (.obj [("error", .str "Invalid interaction payload")]), [])
                else
                  match serverValue with
                  | some (Json.str s) =>
                    .ok (json_response 200 (.obj [("type", .num 5)]),
                         [publish_sns_message (commandName.getD .null)
                            (interactionId.getD .null) (interactionToken.getD .null)
                            (splitOnce s).1 (splitOnce s).2])
                  | _ => .error .attributeError

/-- `handler(event, context)`: body reconstruction, signature
verification, JSON parse, then `handle_interaction`.  An `Except.error`
models an exception escaping the Lambda handler. -/
def handler (libs : PyLibs) (event : LambdaEvent) :
    Except PyError (Response × List Json) :=
  match get_body_bytes libs.b64decode event with
  | .error e => .error e
  | .ok bodyBytes =>
    match verify_request libs.cryptoVerify event bodyBytes with
    | .error e => .error e
    | .ok false => .ok (json_response 401 (.obj [("error", .str "Invalid signature")]), [])
    | .ok true =>
      match libs.parseJson bodyBytes with
      | none => .ok (json_response 400 (.obj [("error", .str "Invalid JSON body")]), [])
      | some interaction => handle_interaction interaction

end HandleInteraction

namespace ManageInstance

/- Embedding of `base_global/lambda/manage-instance/handler.py`.
Leading underscores of the Python helper names are dropped. -/

/-- One `{"Key": ..., "Value": ...}` entry of an instance's `Tags`
list (fields optional because the code reads them with `.get`). -/
structure Tag where
  key : Option String
  value : Option String

/-- The fields of a `describe_instances` instance dict that the code
reads: `InstanceId`, `PublicDnsName`, `PublicIpAddress`,
`State.Name` (flattened, since the code only reads
`instance.get("State", {}).get("Name", "unknown")`) and `Tags`. -/
structure Instance where
  instanceId : Option String
  publicDnsName : Option String
  publicIpAddress : Option String
  stateName : Option String
  tags : Option (List Tag)

/-- One reservation of a `describe_instances` response. -/
structure Reservation where
  instances : List Instance

/-- A `describe_instances` response
(`response.get("Reservations", [])`). -/
structure DescribeResult where
  reservations : List Reservation

/-- The boto3 EC2 client for one region, as an opaque capability: the
filter value (the server id) is the only varying argument of
`describe_instances`; the lifecycle calls take the instance id.
`Except.error` models a raised provider exception. -/
structure Ec2Client where
  describe_instances : String → Except PyError DescribeResult
  start_instances : String → Except PyError Unit
  stop_instances : String → Except PyError Unit
  reboot_instances : String → Except PyError Unit

/-- EC2 control-plane calls the executor issues, with the region whose
client performed them. -/
inductive Ec2Action where
  | describe (region serverId : String)
  | start (region instanceId : String)
  | stop (region instanceId : String)
  | reboot (region instanceId : String)

/-- The region whose client an action was issued through. -/
def Ec2Action.region : Ec2Action → String
  | .describe r _ => r
  | .start r _ => r
  | .stop r _ => r
  | .reboot r _ => r

/-- Loop of `_get_tag`: value of the first tag whose `Key` equals the
wanted key. -/
def getTagAux : List Tag → String → Option String
  | [], _ => none
  | t :: rest, k => if t.key = some k then t.value else getTagAux rest k

/-- `_get_tag(tags, tag_key)` (`if not tags` also catches an empty
list). -/
def get_tag (tags : Option (List Tag)) (tagKey : String) : Option String :=
  match tags with
  | none => none
  | some [] => none
  | some ts => getTagAux ts tagKey

/-- Python truthiness of an optional string (`None` and `""` falsy). -/
def truthyS : Option String → Bool
  | none => false
  | some s => s != ""

/-- Rendering of a value inside an f-string: Python prints `None` for
an absent value. -/
def pyStrOfOpt : Option String → String
  | none => "None"
  | some s => s

/-- `_format_address_message(instance)`: header line plus one line per
present address class.  Note the port suffix `:{main_port}` is appended
unconditionally, so it reads `:None` when the `MainPort` tag is
absent. -/
def format_address_message (inst : Instance) : String :=
  let publicDns := inst.publicDnsName
  let publicIp := inst.publicIpAddress
  let hostname := get_tag inst.tags "GameServerEC2Discord:Hostname"
  let mainPort := get_tag inst.tags "GameServerEC2Discord:MainPort"
  let portStr := pyStrOfOpt mainPort
  let lines := ["Addresses:"]
    ++ (if truthyS publicIp then ["- **`" ++ pyStrOfOpt publicIp ++ ":" ++ portStr ++ "`**"] else [])
    ++ (if truthyS publicDns then ["- `" ++ pyStrOfOpt publicDns ++ ":" ++ portStr ++ "`"] else [])
    ++ (if truthyS hostname then ["- `" ++ pyStrOfOpt hostname ++ ":" ++ portStr ++ "`"] else [])
  joinLines lines

/-- The scanning loop of `_find_instance`: the first instance across
all reservations (the `describe_instances` call itself is issued by the
caller through the client capability). -/
def find_instance : List Reservation → Option Instance
  | [] => none
  | r :: rest =>
    match r.instances with
    | [] => find_instance rest
    | i :: _ => some i

/-- The not-found outcome string of `_send_ec2_command`. -/
def notFoundMsg (serverId region : String) : String :=
  "Instance with server ID " ++ serverId ++ " not found on region " ++ region

/-- The outcome string built from a caught `ClientError`. -/
def ec2ErrorMsg (m : String) : String :=
  "Error executing command:\n```\n" ++ m ++ "\n```"

/-- `_send_ec2_command(server_id, region, command)`.  The first
component is the outcome string, or the exception that escaped: the
`describe_instances` call runs *before* the `try`, so its failures
propagate, and the `except ClientError` inside the `try` catches only
`ClientError` from the lifecycle calls.  The second component lists the
EC2 calls issued (a call is recorded whether or not it raised). -/
def send_ec2_command (getClient : String → Ec2Client)
    (serverId region command : String) :
    Except PyError String × List Ec2Action :=
  match (getClient region).describe_instances serverId with
  | .error e => (.error e, [.describe region serverId])
  | .ok resp =>
    match find_instance resp.reservations with
    | none => (.ok (notFoundMsg serverId region), [Ec2Action.describe region serverId])
    | some inst =>
      match inst.instanceId with
      | none => (.ok (notFoundMsg serverId region), [Ec2Action.describe region serverId])
      | some iid =>
        if iid = "" then (.ok (notFoundMsg serverId region), [Ec2Action.describe region serverId])
        else if command = "start" then
          match (getClient region).start_instances iid with
          | .ok _ => (.ok "Starting...", [Ec2Action.describe region serverId] ++ [.start region iid])
          | .error (.clientError m) => (.ok (ec2ErrorMsg m), [Ec2Action.describe region serverId] ++ [.start region iid])
          | .error e => (.error e, [Ec2Action.describe region serverId] ++ [.start region iid])
        else if command = "stop" then
          match (getClient region).stop_instances iid with
          | .ok _ => (.ok "Stopping...", [Ec2Action.describe region serverId] ++ [.stop region iid])
          | .error (.clientError m) => (.ok (ec2ErrorMsg m), [Ec2Action.describe region serverId] ++ [.stop region iid])
          | .error e => (.error e, [Ec2Action.describe region serverId] ++ [.stop region iid])
        else if command = "restart" then
          match (getClient region).reboot_instances iid with
          | .ok _ => (.ok "Rebooting...", [Ec2Action.describe region serverId] ++ [.reboot region iid])
          | .error (.clientError m) => (.ok (ec2ErrorMsg m), [Ec2Action.describe region serverId] ++ [.reboot region iid])
          | .error e => (.error e, [Ec2Action.describe region serverId] ++ [.reboot region iid])
        else if command = "status" then
          (.ok ("State: " ++ inst.stateName.getD "unknown"), [Ec2Action.describe region serverId])
        else if command = "ip" then
          (.ok (format_address_message inst), [Ec2Action.describe region serverId])
        else (.ok "Unknown command", [Ec2Action.describe region serverId])

/-- Observable behaviour of one executor invocation: the exception
that escaped (if any), the EC2 calls issued, and the Discord
interaction patches attempted (token, content); `_patch_interaction`
swallows HTTP failures, so a patch is an attempt, not a guarantee. -/
structure ManageResult where
  raised : Option PyError
  actions : List Ec2Action
  patches : List (String × String)

/-- `handler(event, context)` of the executor, from the parsed SNS
message onwards (`_parse_sns_message` is JSON decoding of the delivered
channel message).  A message with a missing or falsy `command`,
`interactionToken`, `serverId` or `instanceRegion` is dropped with only
a log line.  Truthy non-string field values cannot be produced by the
dispatcher and would fail inside boto3/urllib; they are modelled as a
raise. -/
def handler (getClient : String → Ec2Client) (message : Json) : ManageResult :=
  match message.pyGet "command", message.pyGet "interactionToken",
        message.pyGet "serverId", message.pyGet "instanceRegion" with
  | .ok command, .ok interactionToken, .ok serverId, .ok region =>
    if !(truthyOpt command && truthyOpt interactionToken &&
          truthyOpt serverId && truthyOpt region) then
      ⟨none, [], []⟩
    else
      match command, interactionToken, serverId, region with
      | some (Json.str c), some (Json.str t), some (Json.str s), some (Json.str r) =>
        match send_ec2_command getClient s r c with
        | (.error e, acts) => ⟨some e, acts, []⟩
        | (.ok outcome, acts) => ⟨none, acts, [(t, outcome)]⟩
      | _, _, _, _ => ⟨some .typeError, [], []⟩
  | _, _, _, _ => ⟨some .attributeError, [], []⟩

end ManageInstance

/-! ### Concrete fixtures used to instantiate the theorems -/

/-- A syntactically well-formed 64-byte signature in hex. -/
def zeros128 : String :=
  String.mk (List.replicate 128 '0')

/-- An event carrying a well-formed signature and timestamp header. -/
def validEvent : HandleInteraction.LambdaEvent :=
  ⟨some "x", false,
   some [("x-signature-ed25519", zeros128), ("x-signature-timestamp", "1")]⟩

/-- Capabilities that accept every signature and parse every body to
the given interaction. -/
def libsFor (j : Json) : HandleInteraction.PyLibs :=
  ⟨fun _ _ => true, fun _ => Except.error .valueError, fun _ => some j⟩

/-- A ping interaction with extra payload. -/
def pingInteraction : Json :=
  Json.obj [("type", Json.num 1), ("foo", Json.str "x")]

/-- An application-command interaction whose server option value holds
two `|` separators. -/
def twoSepInteraction : Json :=
  Json.obj
    [("type", Json.num 2), ("id", Json.str "42"), ("token", Json.str "tok"),
     ("data", Json.obj
       [("name", Json.str "start"),
        ("options", Json.arr
          [Json.obj [("name", Json.str "server"), ("value", Json.str "a|b|c")]])])]

/-- An application-command interaction without any `server` option. -/
def noServerInteraction : Json :=
  Json.obj
    [("type", Json.num 2), ("id", Json.str "1"), ("token", Json.str "t"),
     ("data", Json.obj [("name", Json.str "start")])]

/-- A well-formed `start` command interaction for
`us-east-1|i-0123456789abcdef0`. -/
def cmdInteraction : Json :=
  Json.obj
    [("type", Json.num 2), ("id", Json.str "42"), ("token", Json.str "tok"),
     ("data", Json.obj
       [("name", Json.str "start"),
        ("options", Json.arr
          [Json.obj [("name", Json.str "server"),
                     ("value", Json.str "us-east-1|i-0123456789abcdef0")]])])]

/-- An EC2 client whose describe call fails with a provider error. -/
def describeFailsClient : ManageInstance.Ec2Client :=
  ⟨fun _ => Except.error (.clientError "AccessDenied"),
   fun _ => Except.ok (), fun _ => Except.ok (), fun _ => Except.ok ()⟩

/-- An instance with a public IP and no tags at all. -/
def instNoPort : ManageInstance.Instance :=
  ⟨some "i-1", none, some "1.2.3.4", some "running", none⟩

/-- The instance of the spec's `ip` example: public IP, tag hostname
and tag port, no public DNS name. -/
def instFull : ManageInstance.Instance :=
  ⟨some "i-1", none, some "1.2.3.4", some "running",
   some [⟨some "GameServerEC2Discord:Hostname", some "play.example.com"⟩,
         ⟨some "GameServerEC2Discord:MainPort", some "25565"⟩]⟩

/-- An instance with no address information at all. -/
def instEmpty : ManageInstance.Instance :=
  ⟨some "i-1", none, none, none, none⟩

/-- An EC2 client that finds `instFull` and whose start call fails with
a `ClientError`. -/
def startFailsClient : ManageInstance.Ec2Client :=
  ⟨fun _ => Except.ok ⟨[⟨[instFull]⟩]⟩,
   fun _ => Except.error (.clientError "boom"),
   fun _ => Except.ok (), fun _ => Except.ok ()⟩

/-- An EC2 client whose describe call matches no instance. -/
def emptyClient : ManageInstance.Ec2Client :=
  ⟨fun _ => Except.ok ⟨[]⟩,
   fun _ => Except.ok (), fun _ => Except.ok (), fun _ => Except.ok ()⟩

/-- The shape of a channel message as the executor receives it, with
every field explicit (the dispatcher produces exactly this shape via
`publish_sns_message`). -/
def mkChannelMsg (interactionId interactionToken command serverId region instanceRegion : Json) :
    Json :=
  Json.obj
    [("interactionId", interactionId),
     ("interactionToken", interactionToken),
     ("command", command),
     ("serverId", serverId),
     ("region", region),
     ("instanceRegion", instanceRegion)]

/-! ### Helper lemmas -/

theorem strMk_data (s : String) : String.mk s.data = s :=
  rfl

theorem takeWhile_until_pipe (l₁ l₂ : List Char) (h : '|' ∉ l₁) :
    (l₁ ++ '|' :: l₂).takeWhile (fun c => c != '|') = l₁ := by
  induction l₁ with
  | nil => simp [List.takeWhile]
  | cons c cs ih =>
    have hc : c ≠ '|' := fun hc => h (hc ▸ List.mem_cons_self c cs)
    have hcs : '|' ∉ cs := fun hm => h (List.mem_cons_of_mem c hm)
    have hb : (c != '|') = true := by simp [bne_iff_ne, hc]
    simp [List.takeWhile, hb, ih hcs]

theorem dropWhile_until_pipe (l₁ l₂ : List Char) (h : '|' ∉ l₁) :
    (l₁ ++ '|' :: l₂).dropWhile (fun c => c != '|') = '|' :: l₂ := by
  induction l₁ with
  | nil => simp [List.dropWhile]
  | cons c cs ih =>
    have hc : c ≠ '|' := fun hc => h (hc ▸ List.mem_cons_self c cs)
    have hcs : '|' ∉ cs := fun hm => h (List.mem_cons_of_mem c hm)
    have hb : (c != '|') = true := by simp [bne_iff_ne, hc]
    simp [List.dropWhile, hb, ih hcs]

theorem contains_pipe_append (l₁ l₂ : List Char) :
    (l₁ ++ '|' :: l₂).contains '|' = true := by
  induction l₁ with
  | nil => simp [List.contains]
  | cons c cs ih =>
    by_cases hc : '|' = c <;> simp_all [List.contains, List.elem_cons]

/-- Splitting `a|b` on the first separator recovers `a` and `b` when
`a` itself carries no separator. -/
theorem splitOnce_append (a b : String) (h : '|' ∉ a.data) :
    HandleInteraction.splitOnce (a ++ "|" ++ b) = (a, b) := by
  unfold HandleInteraction.splitOnce
  have hdata : (a ++ "|" ++ b).data = a.data ++ '|' :: b.data := by
    simp [String.data_append]
  rw [hdata, takeWhile_until_pipe _ _ h, dropWhile_until_pipe _ _ h]
  simp [strMk_data]

theorem contains_pipe_of_append (a b : String) :
    (a ++ "|" ++ b).data.contains '|' = true := by
  have hdata : (a ++ "|" ++ b).data = a.data ++ '|' :: b.data := by
    simp [String.data_append]
  rw [hdata]
  exact contains_pipe_append _ _

theorem verify_request_of_missing_header (cv : List Nat → List Nat → Bool)
    (event : HandleInteraction.LambdaEvent) (bodyBytes : List Nat)
    (h : HandleInteraction.get_header event.headers "x-signature-ed25519" = none ∨
         HandleInteraction.get_header event.headers "x-signature-timestamp" = none) :
    HandleInteraction.verify_request cv event bodyBytes = .ok false := by
  unfold HandleInteraction.verify_request
  rcases h with h | h
  · rw [h]
  · rw [h]
    cases HandleInteraction.get_header event.headers "x-signature-ed25519" <;> rfl

theorem ne_empty_of_contains_pipe (s : String) (h : s.data.contains '|' = true) :
    s ≠ "" := by
  intro hs
  subst hs
  simp [List.contains] at h

theorem pyTypeEq_two (ty : Option Json) (h : pyTypeEq ty 2 = true) :
    ty = some (Json.num 2) := by
  match ty with
  | none => simp [pyTypeEq] at h
  | some Json.null => simp [pyTypeEq] at h
  | some (Json.bool b) => cases b <;> simp [pyTypeEq] at h
  | some (Json.num n) =>
    simp [pyTypeEq] at h
    rw [h]
  | some (Json.str s) => simp [pyTypeEq] at h
  | some (Json.arr xs) => simp [pyTypeEq] at h
  | some (Json.obj fs) => simp [pyTypeEq] at h

/-- The accepted-command path of the dispatcher: an application-command
interaction whose `server` option value is a string containing a `|`
and whose name, id and token are truthy is acknowledged with a deferred
response and published as one SNS message, split on the first `|`. -/
theorem handle_interaction_publish (interaction : Json) (ty : Option Json) (s : String)
    (cn iid tok : Json)
    (hty : interaction.pyGet "type" = .ok ty)
    (hty2 : pyTypeEq ty 2 = true)
    (hsv : HandleInteraction.find_server_option_value interaction = .ok (some (.str s)))
    (hpipe : s.data.contains '|' = true)
    (hcn : HandleInteraction.getDataField interaction "name" = .ok (some cn))
    (hcnT : cn.truthy = true)
    (hid : interaction.pyGet "id" = .ok (some iid)) (hidT : iid.truthy = true)
    (htok : interaction.pyGet "token" = .ok (some tok)) (htokT : tok.truthy = true) :
    HandleInteraction.handle_interaction interaction =
      .ok (HandleInteraction.json_response 200 (.obj [("type", .num 5)]),
        [HandleInteraction.publish_sns_message cn iid tok
          (HandleInteraction.splitOnce s).1 (HandleInteraction.splitOnce s).2]) := by
  have hs : s ≠ "" := ne_empty_of_contains_pipe s hpipe
  have hty' : ty = some (Json.num 2) := pyTypeEq_two ty hty2
  subst hty'
  have hmem : '|' ∈ s.data := List.mem_of_elem_eq_true hpipe
  have hmal : HandleInteraction.serverOptionMalformed (some (.str s)) = .ok false := by
    simp [HandleInteraction.serverOptionMalformed, Json.truthy, hs, hmem]
  unfold HandleInteraction.handle_interaction
  rw [hty]
  simp only [pyTypeEq, hsv, hmal, hcn, hid, htok]
  norm_num
  simp [truthyOpt, hcnT, hidT, htokT]

theorem handle_interaction_msgs_shape (interaction : Json)
    (res : HandleInteraction.Response × List Json)
    (h : HandleInteraction.handle_interaction interaction = .ok res) :
    res.2 = [] ∨ ∃ c i t r s, res.2 = [HandleInteraction.publish_sns_message c i t r s] := by
  unfold HandleInteraction.handle_interaction at h
  repeat' split at h
  all_goals try cases h
  all_goals first
    | (left; rfl)
    | (right; exact ⟨_, _, _, _, _, rfl⟩)

theorem handler_msgs_shape (libs : HandleInteraction.PyLibs)
    (event : HandleInteraction.LambdaEvent)
    (res : HandleInteraction.Response × List Json)
    (h : HandleInteraction.handler libs event = .ok res) :
    res.2 = [] ∨ ∃ c i t r s, res.2 = [HandleInteraction.publish_sns_message c i t r s] := by
  unfold HandleInteraction.handler at h
  repeat' split at h
  all_goals try cases h
  all_goals first
    | (left; rfl)
    | (exact handle_interaction_msgs_shape _ _ h)

theorem send_ec2_actions_region (getClient : String → ManageInstance.Ec2Client)
    (serverId region command : String) :
    ∀ a ∈ (ManageInstance.send_ec2_command getClient serverId region command).2,
      a.region = region := by
  intro a ha
  unfold ManageInstance.send_ec2_command at ha
  cases hd : (getClient region).describe_instances serverId <;> simp only [hd] at ha
  · simp at ha
    subst ha
    rfl
  next resp =>
    cases hf : ManageInstance.find_instance resp.reservations <;> simp only [hf] at ha
    · simp at ha
      subst ha
      rfl
    next inst =>
      cases hi : inst.instanceId <;> simp only [hi] at ha
      · simp at ha
        subst ha
        rfl
      next iid =>
        by_cases hiid : iid = "" <;> simp only [hiid, if_true, if_false] at ha
        · simp at ha
          subst ha
          rfl
        · by_cases hc1 : command = "start" <;> simp only [hc1, if_true, if_false] at ha
          · cases hs : (getClient region).start_instances iid <;> simp only [hs] at ha
            · rename_i e
              cases e <;> simp at ha <;> rcases ha with rfl | rfl <;> rfl
            · simp at ha
              rcases ha with rfl | rfl <;> rfl
          by_cases hc2 : command = "stop" <;> simp only [hc2, if_true, if_false] at ha
          · cases hs : (getClient region).stop_instances iid <;> simp only [hs] at ha
            · rename_i e
              cases e <;> simp at ha <;> rcases ha with rfl | rfl <;> rfl
            · simp at ha
              rcases ha with rfl | rfl <;> rfl
          by_cases hc3 : command = "restart" <;> simp only [hc3, if_true, if_false] at ha
          · cases hs : (getClient region).reboot_instances iid <;> simp only [hs] at ha
            · rename_i e
              cases e <;> simp at ha <;> rcases ha with rfl | rfl <;> rfl
            · simp at ha
              rcases ha with rfl | rfl <;> rfl
          by_cases hc4 : command = "status" <;> simp only [hc4, if_true, if_false] at ha
          · simp at ha
            subst ha
            rfl
          by_cases hc5 : command = "ip" <;> simp only [hc5, if_true, if_false] at ha
          · simp at ha
            subst ha
            rfl
          · simp at ha
            subst ha
            rfl

/-! ### Claim theorems -/

/-- C1: for every inbound request whose body decodes and on which
signature verification returns `False` — in particular whenever the
signature or timestamp header is missing — the dispatcher returns a 401
response with an error body and publishes no SNS message; the statement
is universally quantified over the JSON parser, so the result does not
depend on (and hence never invokes) JSON parsing. -/
theorem dispatcher_verify_fail_yields_401
    (libs : HandleInteraction.PyLibs) (event : HandleInteraction.LambdaEvent)
    (bodyBytes : List Nat)
    (hbody : HandleInteraction.get_body_bytes libs.b64decode event = .ok bodyBytes) :
    (HandleInteraction.verify_request libs.cryptoVerify event bodyBytes = .ok false →
      HandleInteraction.handler libs event =
        .ok (HandleInteraction.json_response 401 (.obj [("error", .str "Invalid signature")]), []))
    ∧ ((HandleInteraction.get_header event.headers "x-signature-ed25519" = none ∨
        HandleInteraction.get_header event.headers "x-signature-timestamp" = none) →
      HandleInteraction.handler libs event =
        .ok (HandleInteraction.json_response 401 (.obj [("error", .str "Invalid signature")]), [])) := by
  constructor
  · intro hv
    unfold HandleInteraction.handler
    simp only [hbody, hv]
  · intro hh
    have hv := verify_request_of_missing_header libs.cryptoVerify event bodyBytes hh
    unfold HandleInteraction.handler
    simp only [hbody, hv]

/-- Witness for C1: an event with no headers at all is answered 401
with no publish, whatever the parser would have said. -/
theorem dispatcher_verify_fail_yields_401_witness :
    HandleInteraction.handler (libsFor pingInteraction) ⟨some "x", false, none⟩ =
      .ok (HandleInteraction.json_response 401 (.obj [("error", .str "Invalid signature")]), []) :=
  (dispatcher_verify_fail_yields_401 (libsFor pingInteraction) ⟨some "x", false, none⟩
    (strToBytes "x") rfl).1 rfl

/-- C2 counterexample: a malformed-hex signature header makes
`_verify_request` raise (`bytes.fromhex` raises `ValueError` inside the
`try`, whose `except` clause catches only `BadSignatureError`), rather
than return `False` as the claim states. -/
theorem verify_malformed_hex_raises_cex :
    HandleInteraction.verify_request (fun _ _ => true)
      ⟨some "x", false,
       some [("x-signature-ed25519", "zz"), ("x-signature-timestamp", "1")]⟩
      [] = .error .valueError ∧
    (Except.error PyError.valueError ≠ (.ok false : Except PyError Bool)) :=
  ⟨rfl, fun h => Except.noConfusion h⟩

/-- C2 amended: the verifier returns `False` (does not raise) on
missing headers and on signature mismatch, but raises `ValueError` when
the signature header is not valid hex. -/
theorem verify_request_error_behaviour :
    (∀ (cv : List Nat → List Nat → Bool) (event : HandleInteraction.LambdaEvent)
       (bodyBytes : List Nat),
      (HandleInteraction.get_header event.headers "x-signature-ed25519" = none ∨
       HandleInteraction.get_header event.headers "x-signature-timestamp" = none) →
      HandleInteraction.verify_request cv event bodyBytes = .ok false)
    ∧ (∀ (cv : List Nat → List Nat → Bool) (event : HandleInteraction.LambdaEvent)
         (bodyBytes : List Nat) (sig ts : String),
      HandleInteraction.get_header event.headers "x-signature-ed25519" = some sig →
      HandleInteraction.get_header event.headers "x-signature-timestamp" = some ts →
      sig ≠ "" → ts ≠ "" → bytesFromHex sig = none →
      HandleInteraction.verify_request cv event bodyBytes = .error .valueError)
    ∧ (∀ (cv : List Nat → List Nat → Bool) (event : HandleInteraction.LambdaEvent)
         (bodyBytes : List Nat) (sig ts : String) (sigBytes : List Nat),
      HandleInteraction.get_header event.headers "x-signature-ed25519" = some sig →
      HandleInteraction.get_header event.headers "x-signature-timestamp" = some ts →
      sig ≠ "" → ts ≠ "" → bytesFromHex sig = some sigBytes → sigBytes.length = 64 →
      cv (strToBytes ts ++ bodyBytes) sigBytes = false →
      HandleInteraction.verify_request cv event bodyBytes = .ok false) := by
  refine ⟨verify_request_of_missing_header, ?_, ?_⟩
  · intro cv event bodyBytes sig ts hsig hts hsne htne hhex
    unfold HandleInteraction.verify_request
    rw [hsig, hts]
    simp [hsne, htne, hhex]
  · intro cv event bodyBytes sig ts sigBytes hsig hts hsne htne hhex hlen hcv
    unfold HandleInteraction.verify_request
    rw [hsig, hts]
    simp [hsne, htne, hhex, hlen, hcv]

/-- Witness for C2's amended theorem: missing headers give `False`;
the malformed-hex signature `"zz"` raises. -/
theorem verify_request_error_behaviour_witness :
    HandleInteraction.verify_request (fun _ _ => false) ⟨some "x", false, none⟩ [] = .ok false ∧
    HandleInteraction.verify_request (fun _ _ => false)
      ⟨some "x", false,
       some [("x-signature-ed25519", "zz"), ("x-signature-timestamp", "1")]⟩
      [] = .error .valueError :=
  ⟨verify_request_error_behaviour.1 _ _ _ (Or.inl rfl),
   verify_request_error_behaviour.2.1 _ _ _ "zz" "1" rfl rfl (by decide) (by decide) rfl⟩

/-- C7: a request whose body decodes, whose signature verifies, whose
body parses to an interaction of type ping (Python `== 1`) is answered
200 with body `(type, 1)` and publishes nothing, whatever else the
payload contains. -/
theorem dispatcher_ping_returns_type1
    (libs : HandleInteraction.PyLibs) (event : HandleInteraction.LambdaEvent)
    (bodyBytes : List Nat) (interaction : Json) (ty : Option Json)
    (hbody : HandleInteraction.get_body_bytes libs.b64decode event = .ok bodyBytes)
    (hverify : HandleInteraction.verify_request libs.cryptoVerify event bodyBytes = .ok true)
    (hparse : libs.parseJson bodyBytes = some interaction)
    (hty : interaction.pyGet "type" = .ok ty)
    (hping : pyTypeEq ty 1 = true) :
    HandleInteraction.handler libs event =
      .ok (HandleInteraction.json_response 200 (.obj [("type", .num 1)]), []) := by
  unfold HandleInteraction.handler
  simp only [hbody, hverify, hparse]
  unfold HandleInteraction.handle_interaction
  simp only [hty]
  simp [hping]

/-- Witness for C7: a concrete ping interaction with extra payload on a
validly signed event. -/
theorem dispatcher_ping_returns_type1_witness :
    HandleInteraction.handler (libsFor pingInteraction) validEvent =
      .ok (HandleInteraction.json_response 200 (.obj [("type", .num 1)]), []) :=
  dispatcher_ping_returns_type1 (libsFor pingInteraction) validEvent
    (strToBytes "x") pingInteraction (some (Json.num 1)) rfl rfl rfl rfl rfl

/-- C5 counterexample: the dispatcher accepts the server option value
`"a|b|c"`, which contains two `|` separators, acknowledging with 200
and publishing one message (region `"a"`, server id `"b|c"`), whereas
the claim requires a 400 response with no publish for any value not
containing exactly one separator.  The code only checks `"|" in value`. -/
theorem dispatcher_accepts_two_separators_cex :
    HandleInteraction.handler (libsFor twoSepInteraction) validEvent =
      .ok (HandleInteraction.json_response 200 (.obj [("type", .num 5)]),
        [HandleInteraction.publish_sns_message (.str "start") (.str "42") (.str "tok")
          "a" "b|c"]) ∧
    (("a|b|c").data.filter (fun c => c == '|')).length = 2 :=
  ⟨rfl, rfl⟩

/-- C5 amended: the dispatcher requires the server option value to be
present, truthy, and to contain at least one `|` (splitting on the
first); a missing value or one without any `|` is answered 400 with no
publish. -/
theorem dispatcher_server_option_amended :
    (∀ (interaction : Json) (ty : Option Json),
      interaction.pyGet "type" = .ok ty → pyTypeEq ty 2 = true →
      HandleInteraction.find_server_option_value interaction = .ok none →
      HandleInteraction.handle_interaction interaction =
        .ok (HandleInteraction.json_response 400
              (.obj [("error", .str "Missing server option")]), []))
    ∧ (∀ (interaction : Json) (ty : Option Json) (s : String),
      interaction.pyGet "type" = .ok ty → pyTypeEq ty 2 = true →
      HandleInteraction.find_server_option_value interaction = .ok (some (.str s)) →
      s.data.contains '|' = false →
      HandleInteraction.handle_interaction interaction =
        .ok (HandleInteraction.json_response 400
              (.obj [("error", .str "Missing server option")]), []))
    ∧ (∀ (interaction : Json) (ty : Option Json) (s : String) (cn iid tok : Json),
      interaction.pyGet "type" = .ok ty → pyTypeEq ty 2 = true →
      HandleInteraction.find_server_option_value interaction = .ok (some (.str s)) →
      s.data.contains '|' = true →
      HandleInteraction.getDataField interaction "name" = .ok (some cn) → cn.truthy = true →
      interaction.pyGet "id" = .ok (some iid) → iid.truthy = true →
      interaction.pyGet "token" = .ok (some tok) → tok.truthy = true →
      HandleInteraction.handle_interaction interaction =
        .ok (HandleInteraction.json_response 200 (.obj [("type", .num 5)]),
          [HandleInteraction.publish_sns_message cn iid tok
            (HandleInteraction.splitOnce s).1 (HandleInteraction.splitOnce s).2])) := by
  refine ⟨?_, ?_, ?_⟩
  · intro interaction ty hty h2 hsv
    have hty' := pyTypeEq_two ty h2
    subst hty'
    unfold HandleInteraction.handle_interaction
    simp only [hty, hsv]
    simp [pyTypeEq, HandleInteraction.serverOptionMalformed]
  · intro interaction ty s hty h2 hsv hpipe
    have hty' := pyTypeEq_two ty h2
    subst hty'
    have hmal : HandleInteraction.serverOptionMalformed (some (.str s)) = .ok true := by
      by_cases h0 : s = ""
      · subst h0
        rfl
      · have hnm : '|' ∉ s.data := by
          intro hm
          have he := List.elem_eq_true_of_mem hm
          simp only [List.contains] at hpipe
          rw [he] at hpipe
          cases hpipe
        simp [HandleInteraction.serverOptionMalformed, Json.truthy, h0, hnm]
    unfold HandleInteraction.handle_interaction
    simp only [hty, hsv, hmal]
    simp [pyTypeEq]
  · intro interaction ty s cn iid tok hty h2 hsv hpipe hcn hcnT hid hidT htok htokT
    exact handle_interaction_publish interaction ty s cn iid tok
      hty h2 hsv hpipe hcn hcnT hid hidT htok htokT

/-- Witness for C5's amended theorem: an interaction without a server
option is answered 400 without publishing, and a well-formed one is
published split on the first separator. -/
theorem dispatcher_server_option_amended_witness :
    HandleInteraction.handle_interaction noServerInteraction =
      .ok (HandleInteraction.json_response 400
            (.obj [("error", .str "Missing server option")]), []) ∧
    HandleInteraction.handle_interaction cmdInteraction =
      .ok (HandleInteraction.json_response 200 (.obj [("type", .num 5)]),
        [HandleInteraction.publish_sns_message (.str "start") (.str "42") (.str "tok")
          (HandleInteraction.splitOnce "us-east-1|i-0123456789abcdef0").1
          (HandleInteraction.splitOnce "us-east-1|i-0123456789abcdef0").2]) :=
  ⟨dispatcher_server_option_amended.1 noServerInteraction (some (Json.num 2)) rfl rfl rfl,
   dispatcher_server_option_amended.2.2 cmdInteraction (some (Json.num 2))
     "us-east-1|i-0123456789abcdef0" (.str "start") (.str "42") (.str "tok")
     rfl rfl rfl rfl rfl rfl rfl rfl rfl rfl⟩

/-- C6: an accepted command whose server option value is `a|b` (with no
separator inside `a`) is published with region `a` and server id `b` —
the value is split on its first `|` — and in particular
`"us-east-1|i-0123456789abcdef0"` splits into `"us-east-1"` and
`"i-0123456789abcdef0"`. -/
theorem dispatcher_splits_on_first_separator :
    (∀ (interaction : Json) (ty : Option Json) (a b : String) (cn iid tok : Json),
      interaction.pyGet "type" = .ok ty → pyTypeEq ty 2 = true →
      HandleInteraction.find_server_option_value interaction =
        .ok (some (.str (a ++ "|" ++ b))) →
      '|' ∉ a.data →
      HandleInteraction.getDataField interaction "name" = .ok (some cn) → cn.truthy = true →
      interaction.pyGet "id" = .ok (some iid) → iid.truthy = true →
      interaction.pyGet "token" = .ok (some tok) → tok.truthy = true →
      HandleInteraction.handle_interaction interaction =
        .ok (HandleInteraction.json_response 200 (.obj [("type", .num 5)]),
          [HandleInteraction.publish_sns_message cn iid tok a b]))
    ∧ HandleInteraction.splitOnce "us-east-1|i-0123456789abcdef0" =
        ("us-east-1", "i-0123456789abcdef0") := by
  constructor
  · intro interaction ty a b cn iid tok hty h2 hsv hna hcn hcnT hid hidT htok htokT
    have h := handle_interaction_publish interaction ty (a ++ "|" ++ b) cn iid tok
      hty h2 hsv (contains_pipe_of_append a b) hcn hcnT hid hidT htok htokT
    rw [h, splitOnce_append a b hna]
  · rfl

/-- Witness for C6: the concrete command interaction for
`us-east-1|i-0123456789abcdef0` publishes region `us-east-1` and server
id `i-0123456789abcdef0`. -/
theorem dispatcher_splits_on_first_separator_witness :
    HandleInteraction.handle_interaction cmdInteraction =
      .ok (HandleInteraction.json_response 200 (.obj [("type", .num 5)]),
        [HandleInteraction.publish_sns_message (.str "start") (.str "42") (.str "tok")
          "us-east-1" "i-0123456789abcdef0"]) :=
  dispatcher_splits_on_first_separator.1 cmdInteraction (some (Json.num 2))
    "us-east-1" "i-0123456789abcdef0" (.str "start") (.str "42") (.str "tok")
    rfl rfl rfl (by decide) rfl rfl rfl rfl rfl rfl

/-- C3 counterexample: a provider failure of the tag-lookup
(`describe_instances`) propagates out of `_send_ec2_command` as a raise
(the call sits *before* the `try`), contradicting the claim that every
control-plane failure is converted into an `Outcome` string. -/
theorem executor_lookup_error_raises_cex :
    (ManageInstance.send_ec2_command (fun _ => describeFailsClient)
      "srv1" "eu-west-1" "start").1 = .error (.clientError "AccessDenied") ∧
    (ManageInstance.send_ec2_command (fun _ => describeFailsClient)
      "srv1" "eu-west-1" "start").2 = [.describe "eu-west-1" "srv1"] :=
  ⟨rfl, rfl⟩

/-- C3 amended: `ClientError` failures of the start/stop/reboot calls
are caught and converted into an `Outcome` string — for every command
the result is an `Outcome` provided the lookup succeeded and the
lifecycle calls fail only with `ClientError` — but a failure of the
tag-lookup `describe_instances` call propagates uncaught. -/
theorem executor_action_client_errors_caught :
    (∀ (getClient : String → ManageInstance.Ec2Client) (serverId region command : String)
       (e : PyError),
      (getClient region).describe_instances serverId = .error e →
      ManageInstance.send_ec2_command getClient serverId region command =
        (.error e, [.describe region serverId]))
    ∧ (∀ (getClient : String → ManageInstance.Ec2Client) (serverId region command : String)
         (resp : ManageInstance.DescribeResult),
      (getClient region).describe_instances serverId = .ok resp →
      (∀ iid, (getClient region).start_instances iid = .ok () ∨
        ∃ m, (getClient region).start_instances iid = .error (.clientError m)) →
      (∀ iid, (getClient region).stop_instances iid = .ok () ∨
        ∃ m, (getClient region).stop_instances iid = .error (.clientError m)) →
      (∀ iid, (getClient region).reboot_instances iid = .ok () ∨
        ∃ m, (getClient region).reboot_instances iid = .error (.clientError m)) →
      ∃ s, (ManageInstance.send_ec2_command getClient serverId region command).1 = .ok s) := by
  constructor
  · intro gc serverId region command e hd
    unfold ManageInstance.send_ec2_command
    simp only [hd]
  · intro gc serverId region command resp hd hstart hstop hreboot
    unfold ManageInstance.send_ec2_command
    simp only [hd]
    cases hf : ManageInstance.find_instance resp.reservations <;> simp only [hf]
    · exact ⟨_, rfl⟩
    next inst =>
      cases hi : inst.instanceId <;> simp only [hi]
      · exact ⟨_, rfl⟩
      next iid =>
        by_cases hiid : iid = ""
        · simp only [if_pos hiid]
          exact ⟨_, rfl⟩
        · simp only [if_neg hiid]
          by_cases hc1 : command = "start"
          · simp only [if_pos hc1]
            rcases hstart iid with h | ⟨m, h⟩ <;> simp only [h] <;> exact ⟨_, rfl⟩
          · simp only [if_neg hc1]
            by_cases hc2 : command = "stop"
            · simp only [if_pos hc2]
              rcases hstop iid with h | ⟨m, h⟩ <;> simp only [h] <;> exact ⟨_, rfl⟩
            · simp only [if_neg hc2]
              by_cases hc3 : command = "restart"
              · simp only [if_pos hc3]
                rcases hreboot iid with h | ⟨m, h⟩ <;> simp only [h] <;> exact ⟨_, rfl⟩
              · simp only [if_neg hc3]
                by_cases hc4 : command = "status"
                · simp only [if_pos hc4]
                  exact ⟨_, rfl⟩
                · simp only [if_neg hc4]
                  by_cases hc5 : command = "ip"
                  · simp only [if_pos hc5]
                    exact ⟨_, rfl⟩
                  · simp only [if_neg hc5]
                    exact ⟨_, rfl⟩

/-- Witness for C3's amended theorem: a failing lookup propagates its
error, and a `ClientError`-failing start still yields an `Outcome`. -/
theorem executor_action_client_errors_caught_witness :
    ManageInstance.send_ec2_command (fun _ => describeFailsClient) "s" "r" "status" =
      (.error (.clientError "AccessDenied"), [.describe "r" "s"]) ∧
    ∃ s, (ManageInstance.send_ec2_command (fun _ => startFailsClient) "srv" "r" "start").1 =
      .ok s :=
  ⟨executor_action_client_errors_caught.1 (fun _ => describeFailsClient) "s" "r" "status"
     (.clientError "AccessDenied") rfl,
   executor_action_client_errors_caught.2 (fun _ => startFailsClient) "srv" "r" "start"
     ⟨[⟨[instFull]⟩]⟩ rfl
     (fun _ => Or.inr ⟨"boom", rfl⟩) (fun _ => Or.inl rfl) (fun _ => Or.inl rfl)⟩

/-- C8: when the tag lookup succeeds but matches no instance, the
executor returns the descriptive not-found `Outcome` — for every
command, in particular `start` — and issues no lifecycle call: the only
EC2 call is the describe itself. -/
theorem executor_not_found_outcome
    (getClient : String → ManageInstance.Ec2Client) (serverId region command : String)
    (resp : ManageInstance.DescribeResult)
    (hd : (getClient region).describe_instances serverId = .ok resp)
    (hf : ManageInstance.find_instance resp.reservations = none) :
    ManageInstance.send_ec2_command getClient serverId region command =
      (.ok (ManageInstance.notFoundMsg serverId region), [.describe region serverId]) := by
  unfold ManageInstance.send_ec2_command
  simp only [hd, hf]

/-- Witness for C8: a `start` command against an empty describe
response yields the not-found outcome with only the describe call. -/
theorem executor_not_found_outcome_witness :
    ManageInstance.send_ec2_command (fun _ => emptyClient) "srv1" "eu-west-1" "start" =
      (.ok (ManageInstance.notFoundMsg "srv1" "eu-west-1"), [.describe "eu-west-1" "srv1"]) :=
  executor_not_found_outcome (fun _ => emptyClient) "srv1" "eu-west-1" "start" ⟨[]⟩ rfl rfl

/-- C4 counterexample: an instance with a public IP and no `MainPort`
tag still gets a port suffix — the literal `:None` — on its address
line, contradicting the claim that an address is paired with the port
only if the port tag is present. -/
theorem format_address_port_none_cex :
    ManageInstance.format_address_message instNoPort =
      "Addresses:\n- **`1.2.3.4:None`**" ∧
    ManageInstance.get_tag instNoPort.tags "GameServerEC2Discord:MainPort" = none :=
  ⟨rfl, rfl⟩

/-- C4 amended: each present address class contributes one line, absent
classes are omitted, and every address line is unconditionally suffixed
with `:` followed by the port tag value — rendered as the literal
`None` when the port tag is absent.  The claim's concrete example
(public IP, tag hostname, tag port 25565, no DNS) holds: a header line
plus exactly two address lines, each suffixed `:25565`, no DNS line. -/
theorem format_address_spec_amended :
    (∀ (inst : ManageInstance.Instance) (ip host port : String),
      inst.publicIpAddress = some ip → ip ≠ "" →
      ManageInstance.truthyS inst.publicDnsName = false →
      ManageInstance.get_tag inst.tags "GameServerEC2Discord:Hostname" = some host →
      host ≠ "" →
      ManageInstance.get_tag inst.tags "GameServerEC2Discord:MainPort" = some port →
      ManageInstance.format_address_message inst =
        joinLines ["Addresses:",
          "- **`" ++ ip ++ ":" ++ port ++ "`**",
          "- `" ++ host ++ ":" ++ port ++ "`"])
    ∧ (∀ (inst : ManageInstance.Instance) (ip : String),
      inst.publicIpAddress = some ip → ip ≠ "" →
      ManageInstance.truthyS inst.publicDnsName = false →
      ManageInstance.truthyS
        (ManageInstance.get_tag inst.tags "GameServerEC2Discord:Hostname") = false →
      ManageInstance.get_tag inst.tags "GameServerEC2Discord:MainPort" = none →
      ManageInstance.format_address_message inst =
        joinLines ["Addresses:", "- **`" ++ ip ++ ":None`**"])
    ∧ (∀ (inst : ManageInstance.Instance),
      ManageInstance.truthyS inst.publicIpAddress = false →
      ManageInstance.truthyS inst.publicDnsName = false →
      ManageInstance.truthyS
        (ManageInstance.get_tag inst.tags "GameServerEC2Discord:Hostname") = false →
      ManageInstance.format_address_message inst = "Addresses:") := by
  refine ⟨?_, ?_, ?_⟩
  · intro inst ip host port hip hipne hdns hhost hhostne hport
    unfold ManageInstance.format_address_message
    simp only [hip, hdns, hhost, hport]
    simp [ManageInstance.truthyS, ManageInstance.pyStrOfOpt, hipne, hhostne]
  · intro inst ip hip hipne hdns hhost hport
    unfold ManageInstance.format_address_message
    simp only [hip, hdns, hhost, hport]
    simp [ManageInstance.truthyS, ManageInstance.pyStrOfOpt, hipne, String.append_assoc]
  · intro inst hip hdns hhost
    unfold ManageInstance.format_address_message
    simp only [hip, hdns, hhost]
    simp
    rfl

/-- Witness for C4's amended theorem at the spec's concrete instances. -/
theorem format_address_spec_amended_witness :
    ManageInstance.format_address_message instFull =
      joinLines ["Addresses:", "- **`" ++ "1.2.3.4" ++ ":" ++ "25565" ++ "`**",
        "- `" ++ "play.example.com" ++ ":" ++ "25565" ++ "`"] ∧
    ManageInstance.format_address_message instNoPort =
      joinLines ["Addresses:", "- **`" ++ "1.2.3.4" ++ ":None`**"] ∧
    ManageInstance.format_address_message instEmpty = "Addresses:" :=
  ⟨format_address_spec_amended.1 instFull "1.2.3.4" "play.example.com" "25565"
     rfl (by decide) rfl rfl (by decide) rfl,
   format_address_spec_amended.2.1 instNoPort "1.2.3.4" rfl (by decide) rfl rfl rfl,
   format_address_spec_amended.2.2 instEmpty rfl rfl rfl⟩

/-- Evaluation of the executor handler on a channel message of the
published shape with string fields: drop if any required field is
empty, otherwise run the EC2 command and patch the interaction. -/
theorem manage_handler_str (getClient : String → ManageInstance.Ec2Client)
    (i t c s : String) (r : Json) (ir : String) :
    ManageInstance.handler getClient
      (mkChannelMsg (.str i) (.str t) (.str c) (.str s) r (.str ir)) =
      (if c = "" ∨ t = "" ∨ s = "" ∨ ir = "" then ⟨none, [], []⟩
       else
         match ManageInstance.send_ec2_command getClient s ir c with
         | (.error e, acts) => ⟨some e, acts, []⟩
         | (.ok outcome, acts) => ⟨none, acts, [(t, outcome)]⟩) := by
  unfold ManageInstance.handler mkChannelMsg
  by_cases hc : c = "" <;> by_cases ht : t = "" <;> by_cases hs : s = "" <;>
    by_cases hir : ir = "" <;>
    simp [Json.pyGet, jsonLookup, truthyOpt, Json.truthy, hc, ht, hs, hir]

/-- C9: every message the dispatcher publishes carries equal `region`
and `instanceRegion` fields; the executor's behaviour is independent of
the `region` field, and every EC2 call it issues goes through the
client of the `instanceRegion` field. -/
theorem channel_region_fields_consistent :
    (∀ (libs : HandleInteraction.PyLibs) (event : HandleInteraction.LambdaEvent)
       (resp : HandleInteraction.Response) (msgs : List Json),
      HandleInteraction.handler libs event = .ok (resp, msgs) →
      ∀ m ∈ msgs, ∃ r, m.pyGet "region" = .ok (some (Json.str r)) ∧
        m.pyGet "instanceRegion" = .ok (some (Json.str r)))
    ∧ (∀ (getClient : String → ManageInstance.Ec2Client) (i t c s r₁ r₂ ir : Json),
      ManageInstance.handler getClient (mkChannelMsg i t c s r₁ ir) =
      ManageInstance.handler getClient (mkChannelMsg i t c s r₂ ir))
    ∧ (∀ (getClient : String → ManageInstance.Ec2Client) (i t c s : String) (r : Json)
         (ir : String),
      ∀ a ∈ (ManageInstance.handler getClient
          (mkChannelMsg (.str i) (.str t) (.str c) (.str s) r (.str ir))).actions,
        a.region = ir) := by
  refine ⟨?_, ?_, ?_⟩
  · intro libs event resp msgs h m hm
    rcases handler_msgs_shape libs event (resp, msgs) h with h2 | ⟨c, i, t, r, s, h2⟩
    · simp only [] at h2
      subst h2
      cases hm
    · simp only [] at h2
      subst h2
      simp at hm
      subst hm
      exact ⟨r, rfl, rfl⟩
  · intro gc i t c s r₁ r₂ ir
    rfl
  · intro gc i t c s r ir a ha
    rw [manage_handler_str] at ha
    split at ha
    · cases ha
    · rcases hsc : ManageInstance.send_ec2_command gc s ir c with ⟨res, acts⟩
      rw [hsc] at ha
      have hacts : (ManageInstance.send_ec2_command gc s ir c).2 = acts := by rw [hsc]
      cases res <;> simp only [] at ha <;>
        exact send_ec2_actions_region gc s ir c a (hacts ▸ ha)

/-- Witness for C9: the message published for the concrete command
interaction has matching region fields, and the executor's result on a
concrete message does not depend on the `region` field. -/
theorem channel_region_fields_consistent_witness :
    (∃ r, (HandleInteraction.publish_sns_message (.str "start") (.str "42") (.str "tok")
        "us-east-1" "i-0123456789abcdef0").pyGet "region" = .ok (some (Json.str r)) ∧
      (HandleInteraction.publish_sns_message (.str "start") (.str "42") (.str "tok")
        "us-east-1" "i-0123456789abcdef0").pyGet "instanceRegion" = .ok (some (Json.str r))) ∧
    ManageInstance.handler (fun _ => emptyClient)
      (mkChannelMsg (.str "42") (.str "tok") (.str "start") (.str "srv")
        (.str "junk-region") (.str "r")) =
    ManageInstance.handler (fun _ => emptyClient)
      (mkChannelMsg (.str "42") (.str "tok") (.str "start") (.str "srv")
        (.str "other") (.str "r")) :=
  ⟨channel_region_fields_consistent.1 (libsFor cmdInteraction) validEvent
      (HandleInteraction.json_response 200 (.obj [("type", .num 5)]))
      [HandleInteraction.publish_sns_message (.str "start") (.str "42") (.str "tok")
        "us-east-1" "i-0123456789abcdef0"]
      rfl _ (List.mem_singleton.mpr rfl),
   channel_region_fields_consistent.2.1 (fun _ => emptyClient)
     (.str "42") (.str "tok") (.str "start") (.str "srv")
     (.str "junk-region") (.str "other") (.str "r")⟩

/-- C10: a delivered channel message in which any of the four required
fields (`command`, `interactionToken`, `serverId`, `instanceRegion`) is
missing or the empty string makes the executor return having issued no
EC2 call and no Discord patch. -/
theorem executor_drops_incomplete_message
    (getClient : String → ManageInstance.Ec2Client) (fields : List (String × Json))
    (h : jsonLookup fields "command" = none ∨
         jsonLookup fields "command" = some (Json.str "") ∨
         jsonLookup fields "interactionToken" = none ∨
         jsonLookup fields "interactionToken" = some (Json.str "") ∨
         jsonLookup fields "serverId" = none ∨
         jsonLookup fields "serverId" = some (Json.str "") ∨
         jsonLookup fields "instanceRegion" = none ∨
         jsonLookup fields "instanceRegion" = some (Json.str "")) :
    ManageInstance.handler getClient (Json.obj fields) = ⟨none, [], []⟩ := by
  unfold ManageInstance.handler
  simp only [Json.pyGet]
  rcases h with h | h | h | h | h | h | h | h <;> rw [h] <;>
    simp [truthyOpt, Json.truthy]

/-- Witness for C10: a message with no `command` field is dropped. -/
theorem executor_drops_incomplete_message_witness :
    ManageInstance.handler (fun _ => emptyClient)
      (Json.obj [("interactionToken", Json.str "t"), ("serverId", Json.str "s"),
                 ("instanceRegion", Json.str "r")]) = ⟨none, [], []⟩ :=
  executor_drops_incomplete_message (fun _ => emptyClient)
    [("interactionToken", Json.str "t"), ("serverId", Json.str "s"),
     ("instanceRegion", Json.str "r")] (Or.inl rfl)
